import Mathlib

/-!
Shallow embedding of `src/src/containers/UnenrollConfirmModal/hooks.js`:
the unenroll confirmation modal state machine (`useUnenrollReasons` and
`useUnenrollData`). React `useState` cells become fields of an explicit
`State` structure; each hook callback becomes a pure state transformer.
JavaScript `null` is `Option.none`; the external side effects of
`close`/`closeAndRefresh` (the redux dispatch of `refreshList` and the
`closeModal` callback) are modelled by an explicit list of steps, each
step either an external call or a state mutation, so that the order of
effects relative to the state resets is part of the model.
-/

namespace UnenrollConfirmModal

/-- The values of `modalStates` in hooks.js: confirm, reason, finished. -/
inductive ModalState
  | confirm
  | reason
  | finished
deriving DecidableEq, Repr

/-- The five `React.useState` cells declared in `state` in hooks.js. -/
structure State where
  confirmed : Bool
  customOption : String
  isSkipped : Bool
  selectedReason : Option String
  submittedReason : Option String
deriving DecidableEq, Repr

/-- Initial values passed to the useState calls: `confirmed(false)`,
`customOption('')`, `isSkipped(false)`, `selectedReason(null)`,
`submittedReason(null)`. -/
def initialState : State :=
  { confirmed := false
    customOption := ""
    isSkipped := false
    selectedReason := none
    submittedReason := none }

/-- `clear` from `useUnenrollReasons`: sets selectedReason and
submittedReason to null, customOption to the empty string and
isSkipped to false. -/
def clear (s : State) : State :=
  { s with
    selectedReason := none
    submittedReason := none
    customOption := ""
    isSkipped := false }

/-- `selectOption` from `useUnenrollReasons`: a value callback around
`setSelectedReason`, storing the given key. -/
def selectOption (k : String) (s : State) : State :=
  { s with selectedReason := some k }

/-- `customOption.onChange` from `useUnenrollReasons`: a value callback
around `setCustomOption`, storing the given text. -/
def customOptionOnChange (t : String) (s : State) : State :=
  { s with customOption := t }

/-- `skip` from `useUnenrollReasons`: `setIsSkipped(true)`. -/
def skip (s : State) : State :=
  { s with isSkipped := true }

/-- The derived read `isSubmitted` from `useUnenrollReasons`:
`submittedReason !== null || isSkipped`. -/
def isSubmitted (s : State) : Bool :=
  s.submittedReason.isSome || s.isSkipped

/-- `submit` from `useUnenrollReasons`: if `selectedReason === 'custom'`
then `setSubmittedReason(customOption)` else
`setSubmittedReason(selectedReason)`. -/
def submit (s : State) : State :=
  if s.selectedReason = some "custom" then
    { s with submittedReason := some s.customOption }
  else
    { s with submittedReason := s.selectedReason }

/-- `confirm` from `useUnenrollData`: `setIsConfirmed(true)`. -/
def confirm (s : State) : State :=
  { s with confirmed := true }

/-- The derived `modalState` computation in `useUnenrollData`:
if `isConfirmed` then (`finished` when `reason.isSubmitted` else
`reason`) else `confirm`. -/
def modalState (s : State) : ModalState :=
  if s.confirmed then
    if isSubmitted s then ModalState.finished else ModalState.reason
  else
    ModalState.confirm

/-- The two external collaborators invoked by the controller:
`dispatch(thunkActions.app.refreshList())` and `closeModal()`. -/
inductive ExternalCall
  | refreshList
  | closeModal
deriving DecidableEq, Repr

/-- One statement of the body of `close` or `closeAndRefresh`: either an
external call or a local state mutation. -/
inductive Step
  | call (e : ExternalCall)
  | set (f : State → State)

/-- The body of `close` in hooks.js, statement by statement:
`closeModal(); setIsConfirmed(false); reason.clear();`. -/
def closeSteps : List Step :=
  [ Step.call ExternalCall.closeModal,
    Step.set (fun s => { s with confirmed := false }),
    Step.set clear ]

/-- The body of `closeAndRefresh` in hooks.js, statement by statement:
`dispatch(thunkActions.app.refreshList()); closeModal();
setIsConfirmed(false); reason.clear();`. -/
def closeAndRefreshSteps : List Step :=
  [ Step.call ExternalCall.refreshList,
    Step.call ExternalCall.closeModal,
    Step.set (fun s => { s with confirmed := false }),
    Step.set clear ]

/-- Execute a step list left to right, collecting the trace of external
calls and threading the state. -/
def run : List Step → State → List ExternalCall × State
  | [], s => ([], s)
  | Step.call e :: rest, s =>
      let r := run rest s
      (e :: r.1, r.2)
  | Step.set f :: rest, s => run rest (f s)

/-- Execute a step list where each external call may throw: the callback
returns `Except Unit Unit`. hooks.js has no try/catch, so an error
aborts the remaining statements, exactly as a thrown exception would. -/
def runE (cb : ExternalCall → Except Unit Unit) :
    List Step → State → Except Unit (List ExternalCall × State)
  | [], s => Except.ok ([], s)
  | Step.call e :: rest, s =>
      match cb e with
      | Except.ok _ =>
          match runE cb rest s with
          | Except.ok r => Except.ok (e :: r.1, r.2)
          | Except.error u => Except.error u
      | Except.error u => Except.error u
  | Step.set f :: rest, s => runE cb rest (f s)

/-- The state effect of `close`, ignoring the external trace. -/
def closeState (s : State) : State := (run closeSteps s).2

/-- The state effect of `closeAndRefresh`, ignoring the external trace. -/
def closeAndRefreshState (s : State) : State := (run closeAndRefreshSteps s).2

/-- The actions of the Reason Capture sub-component. -/
inductive ReasonAction
  | selectOption (k : String)
  | customOptionOnChange (t : String)
  | skip
  | submit

/-- Interpret one Reason Capture action. -/
def applyReasonAction : ReasonAction → State → State
  | ReasonAction.selectOption k, s => selectOption k s
  | ReasonAction.customOptionOnChange t, s => customOptionOnChange t s
  | ReasonAction.skip, s => skip s
  | ReasonAction.submit, s => submit s

/-- Run a sequence of Reason Capture actions left to right. -/
def runReasonActions (acts : List ReasonAction) (s : State) : State :=
  acts.foldl (fun s a => applyReasonAction a s) s

/-- Every action exposed by the controller bundle. -/
inductive Action
  | confirm
  | selectOption (k : String)
  | customOptionOnChange (t : String)
  | skip
  | submit
  | close
  | closeAndRefresh

/-- Interpret one controller action on the state. -/
def applyAction : Action → State → State
  | Action.confirm, s => confirm s
  | Action.selectOption k, s => selectOption k s
  | Action.customOptionOnChange t, s => customOptionOnChange t s
  | Action.skip, s => skip s
  | Action.submit, s => submit s
  | Action.close, s => closeState s
  | Action.closeAndRefresh, s => closeAndRefreshState s

/-- Run a sequence of controller actions left to right. -/
def runActions (acts : List Action) (s : State) : State :=
  acts.foldl (fun s a => applyAction a s) s

/-- C1: the modal phase is a pure function of the two flags: whenever the
confirmed flag is false the phase is CONFIRM; otherwise it is FINISHED when
`isSubmitted` (submittedReason non-null or isSkipped) holds and REASON when
it does not. Moreover the sequence confirm; selectOption
"found-another-course"; submit; close from a fresh session observes the
phases CONFIRM, REASON, FINISHED, CONFIRM, with the submitted value null
after close. -/
theorem modalState_pure_function_and_sequence :
    (∀ s : State,
      modalState s =
        if s.confirmed = false then ModalState.confirm
        else if s.submittedReason.isSome || s.isSkipped then ModalState.finished
        else ModalState.reason) ∧
    modalState initialState = ModalState.confirm ∧
    modalState (confirm initialState) = ModalState.reason ∧
    modalState (selectOption "found-another-course" (confirm initialState)) =
      ModalState.reason ∧
    modalState (submit (selectOption "found-another-course" (confirm initialState))) =
      ModalState.finished ∧
    modalState (closeState
      (submit (selectOption "found-another-course" (confirm initialState)))) =
      ModalState.confirm ∧
    (closeState
      (submit (selectOption "found-another-course" (confirm initialState)))).submittedReason
      = none := by
  refine ⟨fun s => ?_, ?_, ?_, ?_, ?_, ?_, ?_⟩
  · cases hc : s.confirmed <;> simp [modalState, isSubmitted, hc]
  · rfl
  · rfl
  · rfl
  · simp [modalState, isSubmitted, submit, selectOption, confirm, initialState]
  · rfl
  · rfl

/-- C2: submit finalizes the submitted value by the derivation rule: when
the selected key is "custom" the submitted value becomes the current
custom-option text, otherwise it becomes the selected key verbatim; in
particular selecting "custom" and typing "too expensive" then submitting
yields "too expensive", and selecting "found-another-course" then
submitting yields "found-another-course". -/
theorem submit_derivation :
    (∀ s : State,
      (submit s).submittedReason =
        if s.selectedReason = some "custom" then some s.customOption
        else s.selectedReason) ∧
    (runReasonActions
      [ReasonAction.selectOption "custom",
       ReasonAction.customOptionOnChange "too expensive",
       ReasonAction.submit] initialState).submittedReason = some "too expensive" ∧
    (runReasonActions
      [ReasonAction.selectOption "found-another-course",
       ReasonAction.submit] initialState).submittedReason =
      some "found-another-course" := by
  refine ⟨fun s => ?_, ?_, ?_⟩
  · unfold submit
    split <;> rfl
  · rfl
  · simp [runReasonActions, applyReasonAction, submit, selectOption, initialState]

/-- C6: after any sequence of selectOption, customOption.onChange, skip and
submit calls starting from the initial state, a single clear restores all
Reason Capture fields: selected null, custom text empty, isSkipped false,
submitted value null, hence isSubmitted false. -/
theorem clear_resets_all_fields (acts : List ReasonAction) :
    (clear (runReasonActions acts initialState)).selectedReason = none ∧
    (clear (runReasonActions acts initialState)).customOption = "" ∧
    (clear (runReasonActions acts initialState)).isSkipped = false ∧
    (clear (runReasonActions acts initialState)).submittedReason = none ∧
    isSubmitted (clear (runReasonActions acts initialState)) = false :=
  ⟨rfl, rfl, rfl, rfl, rfl⟩

/-- C7: in any state with no selection made (selected null) and no prior
submit (submitted value null), skip yields isSubmitted true while the
submitted value remains null. -/
theorem skip_short_circuits_submission (s : State)
    (h1 : s.selectedReason = none) (h2 : s.submittedReason = none) :
    isSubmitted (skip s) = true ∧ (skip s).submittedReason = none := by
  constructor
  · simp [isSubmitted, skip]
  · simpa [skip] using h2

/-- Witness for C7 at the initial state. -/
theorem skip_short_circuits_submission_witness :
    isSubmitted (skip initialState) = true ∧
    (skip initialState).submittedReason = none :=
  skip_short_circuits_submission initialState rfl rfl

/-- C8: confirm and skip are idempotent on every state: applying either
twice equals applying it once; in particular a second confirm leaves
isConfirmed true and the modal phase unchanged. -/
theorem confirm_and_skip_idempotent (s : State) :
    confirm (confirm s) = confirm s ∧
    skip (skip s) = skip s ∧
    (confirm (confirm s)).confirmed = true ∧
    modalState (confirm (confirm s)) = modalState (confirm s) :=
  ⟨rfl, rfl, rfl, rfl⟩

/-- C3: for every call to closeAndRefresh, the refresh dispatch happens
first and closeModal second, and both external calls happen before any
state mutation: running only the external-call prefix leaves the state
untouched, and the full run produces the trace refreshList, closeModal
and then the reset state (confirmed false, reason cleared). -/
theorem closeAndRefresh_ordering (s : State) :
    run closeAndRefreshSteps s =
      ([ExternalCall.refreshList, ExternalCall.closeModal],
       clear { s with confirmed := false }) ∧
    run (closeAndRefreshSteps.take 2) s =
      ([ExternalCall.refreshList, ExternalCall.closeModal], s) :=
  ⟨rfl, rfl⟩

/-- C9: calling submit while selected is null is accepted input, not an
error: the submitted value becomes null, so with isSkipped false the state
still reads isSubmitted false and, once confirmed, the modal phase still
reads REASON. -/
theorem submit_without_selection (s : State) (h1 : s.selectedReason = none) :
    (submit s).submittedReason = none ∧
    (s.isSkipped = false → isSubmitted (submit s) = false) ∧
    (s.isSkipped = false → s.confirmed = true →
      modalState (submit s) = ModalState.reason) := by
  refine ⟨?_, ?_, ?_⟩
  · simp [submit, h1]
  · intro hk
    simp [submit, h1, isSubmitted, hk]
  · intro hk hc
    simp [submit, h1, modalState, isSubmitted, hk, hc]

/-- Witness for C9 in the freshly confirmed state. -/
theorem submit_without_selection_witness :
    (submit (confirm initialState)).submittedReason = none ∧
    isSubmitted (submit (confirm initialState)) = false ∧
    modalState (submit (confirm initialState)) = ModalState.reason :=
  ⟨(submit_without_selection (confirm initialState) rfl).1,
   (submit_without_selection (confirm initialState) rfl).2.1 rfl,
   (submit_without_selection (confirm initialState) rfl).2.2 rfl rfl⟩

/-- C10: after selectOption "custom" with the custom text still (or again)
the empty string, submit yields the submitted value "" and isSubmitted
true: the empty string counts as a finalized reason, so once confirmed the
modal phase reads FINISHED. -/
theorem submit_custom_empty_text (s : State) (h : s.customOption = "") :
    (submit (selectOption "custom" s)).submittedReason = some "" ∧
    isSubmitted (submit (selectOption "custom" s)) = true ∧
    (s.confirmed = true →
      modalState (submit (selectOption "custom" s)) = ModalState.finished) := by
  refine ⟨?_, ?_, ?_⟩
  · simp [submit, selectOption, h]
  · simp [submit, selectOption, isSubmitted]
  · intro hc
    simp [submit, selectOption, modalState, isSubmitted, hc]

/-- Witness for C10 in the freshly confirmed state, whose custom text is
the initial empty string. -/
theorem submit_custom_empty_text_witness :
    (submit (selectOption "custom" (confirm initialState))).submittedReason = some "" ∧
    isSubmitted (submit (selectOption "custom" (confirm initialState))) = true ∧
    modalState (submit (selectOption "custom" (confirm initialState))) =
      ModalState.finished :=
  ⟨(submit_custom_empty_text (confirm initialState) rfl).1,
   (submit_custom_empty_text (confirm initialState) rfl).2.1,
   (submit_custom_empty_text (confirm initialState) rfl).2.2 rfl⟩

/-- C4 counterexample: the controller does not catch exceptions. With a
callback model where every external call throws, close aborts with the
error instead of completing the reset: no final state is produced at all,
so the reset sequence does not complete. -/
theorem close_throwing_callback_aborts :
    runE (fun _ => Except.error ()) closeSteps initialState = Except.error () ∧
    runE (fun _ => Except.error ()) closeAndRefreshSteps initialState =
      Except.error () :=
  ⟨rfl, rfl⟩

/-- C4 amended: close and closeAndRefresh complete the reset sequence
(confirmed set false, then reason cleared) whenever the external callbacks
return normally; hooks.js contains no try/catch, so a throwing callback
propagates and aborts the reset (see the counterexample). -/
theorem close_resets_when_callbacks_return (cb : ExternalCall → Except Unit Unit)
    (h : ∀ e, cb e = Except.ok ()) (s : State) :
    runE cb closeSteps s =
      Except.ok ([ExternalCall.closeModal], clear { s with confirmed := false }) ∧
    runE cb closeAndRefreshSteps s =
      Except.ok ([ExternalCall.refreshList, ExternalCall.closeModal],
        clear { s with confirmed := false }) := by
  constructor <;> simp [runE, closeSteps, closeAndRefreshSteps, h]

/-- Witness for the amended C4 with callbacks that always return
normally, at the initial state. -/
theorem close_resets_when_callbacks_return_witness :
    runE (fun _ => Except.ok ()) closeSteps initialState =
      Except.ok ([ExternalCall.closeModal],
        clear { initialState with confirmed := false }) :=
  (close_resets_when_callbacks_return (fun _ => Except.ok ())
    (fun _ => rfl) initialState).1

/-- C5 counterexample: the state reached from a fresh session by the
single action skip reads phase CONFIRM, and the single action confirm then
makes the next read FINISHED, with no intervening read of REASON: a direct
CONFIRM to FINISHED observation. -/
theorem confirm_after_skip_reads_finished :
    modalState (runActions [Action.skip] initialState) = ModalState.confirm ∧
    modalState (runActions [Action.skip, Action.confirm] initialState) =
      ModalState.finished :=
  ⟨rfl, rfl⟩

/-- C5 amended: for every state in which the phase reads CONFIRM and
isSubmitted is still false, no single action (confirm, selectOption,
customOption.onChange, skip, submit, close, closeAndRefresh) makes the
next read of the phase be FINISHED. The restriction to isSubmitted false
is forced: skip or submit can make isSubmitted true while unconfirmed, and
confirm then jumps straight to FINISHED, as the counterexample shows. -/
theorem no_confirm_to_finished_when_unsubmitted (s : State) (a : Action)
    (hp : modalState s = ModalState.confirm) (hu : isSubmitted s = false) :
    modalState (applyAction a s) ≠ ModalState.finished := by
  have hc : s.confirmed = false := by
    cases hcc : s.confirmed
    · rfl
    · exfalso
      rw [modalState, hcc] at hp
      cases h2 : isSubmitted s <;> simp [h2] at hp
  have h1 : s.submittedReason = none := by
    cases hsr : s.submittedReason
    · rfl
    · exfalso
      rw [isSubmitted, hsr] at hu
      simp at hu
  have h2 : s.isSkipped = false := by
    cases hsk : s.isSkipped
    · rfl
    · exfalso
      rw [isSubmitted, hsk] at hu
      simp at hu
  cases a
  case confirm =>
    simp [applyAction, confirm, modalState, isSubmitted, h1, h2]
  case selectOption k =>
    simp [applyAction, selectOption, modalState, hc]
  case customOptionOnChange t =>
    simp [applyAction, customOptionOnChange, modalState, hc]
  case skip =>
    simp [applyAction, skip, modalState, hc]
  case submit =>
    simp only [applyAction]
    unfold submit
    split <;> simp [modalState, hc]
  case close =>
    simp [applyAction, closeState, run, closeSteps, clear, modalState]
  case closeAndRefresh =>
    simp [applyAction, closeAndRefreshState, run, closeAndRefreshSteps, clear,
      modalState]

/-- Witness for the amended C5: from the fresh initial state, skip does
not make the phase read FINISHED. -/
theorem no_confirm_to_finished_when_unsubmitted_witness :
    modalState (applyAction Action.skip initialState) ≠ ModalState.finished :=
  no_confirm_to_finished_when_unsubmitted initialState Action.skip rfl rfl

end UnenrollConfirmModal
